import Mathlib

/-!
# sgfw D-Bus control protocol: rule store and configuration handlers

A shallow embedding of `sgfw/dbus.go`: the handlers `ListRules`, `DeleteRule`,
`UpdateRule`, `GetConfig` and `SetConfig` of `dbusServer`, and `createDbusRule`.

Go pointers are addresses (natural numbers) into two object heaps, one for
`Rule` objects and one for `Policy` objects, so that the flat id index and a
policy's rule list can share one rule object, as they do in the source. The
only nil pointer a handler can meet is the result of a failed map lookup, which
is `none`. A handler either returns (a value, the `*dbus.Error` and the new
state) or stops with a run-time panic. Locks are not modelled: every handler
is run alone, from start to end.
-/

namespace Sgfw

/-! ## Data model -/

/-- Modelled from the spec: the struct `Rule` is declared outside `dbus.go`; the
fields are the ones `dbus.go` reads and writes. `id` is the rule id, `rtype` a
`RuleAction` and `mode` a `RuleMode`. All three are taken at the width the
wire record gives them ("id: uint32" with "stable identity across
marshalling", "action: uint16", "mode: uint16"), so that the conversions
between a rule and a wire record keep the value; `Rule.Typed` states the
bounds. `policy` is the `*Policy` back pointer. `hostname`, `addr` and `port`
are the target. -/
structure Rule where
  id : Nat
  policy : Nat
  rtype : Nat
  hostname : String
  addr : Nat
  port : Nat
  mode : Nat

/-- Modelled from the spec: the struct `Policy` is declared outside `dbus.go`;
the handlers read the executable path and the list of `*Rule` pointers. -/
structure Policy where
  path : String
  rules : List Nat

/-- The levels of the log calls the handlers make. -/
inductive LogLevel where
  | debug
  | warning
  deriving DecidableEq, Repr

/-- Modelled from the spec: the struct `Firewall` is declared outside `dbus.go`;
the handlers use the `*Policy` pointers in order, the map `rulesById` from
`uint` to `*Rule` (`none` is the nil pointer that the lookup of a missing key
gives), and the levelled logging backend, kept as the level it holds for each
module (a `logging.Level`, a Go `int`). -/
structure Firewall where
  policies : List Nat
  rulesById : Nat → Option Nat
  logBackend : String → Int

/-- Modelled from the spec: the type of the global `FirewallConfig` is declared
outside `dbus.go`; these are the fields the handlers use. `LoggingLevel` is a
`logging.Level` (a Go `int`); `DefaultActionId` is a `FilterScope`, taken to be
16 bits wide as the wire has it ("default_action: uint16"), so that
`FilterScope(l)` keeps the value. -/
structure Config where
  LoggingLevel : Int
  LogRedact : Bool
  PromptExpanded : Bool
  PromptExpert : Bool
  DefaultActionId : Nat

/-- The daemon state a handler runs in: both object heaps, the firewall, the
global configuration, and the record of the outside effects (how often
`saveRules` and `writeConfig` were called, and the log calls in order). -/
structure State where
  ruleHeap : Nat → Rule
  policyHeap : Nat → Policy
  fw : Firewall
  FirewallConfig : Config
  saveRulesCalls : Nat
  writeConfigCalls : Nat
  log : List LogLevel

/-- The struct `DbusRule`, the wire record: `Id` is a `uint32`, `Verb` and
`Mode` are `uint16`. -/
structure DbusRule where
  Id : Nat
  App : String
  Path : String
  Verb : Nat
  Target : String
  Mode : Nat
  deriving DecidableEq, Repr

/-- A `dbus.Variant`: a value together with the tag of its dynamic type. -/
inductive Variant where
  | bool (b : Bool)
  | byte (n : Nat)
  | int16 (i : Int)
  | uint16 (n : Nat)
  | int32 (i : Int)
  | uint32 (n : Nat)
  | int64 (i : Int)
  | uint64 (n : Nat)
  | str (s : String)
  | other
  deriving DecidableEq, Repr

/-- The result of running a handler: it returns a value and a `*dbus.Error`
(`none` for nil) in a new state, or it stops with a run-time panic. -/
inductive Outcome (α : Type) where
  | returned (val : α) (err : Option String) (s : State)
  | panicked

/-- What `dbus.go` uses and does not declare, as parameters: the rule mode and
rule action constants, the address constant `noAddress`, and the `Rule` methods
`parseTarget` (it fills the rule it is called on and reports success) and
`AddrString`. `RULE_MODE_PERSISTENT` stands for the third mode of the data
model; `dbus.go` names only the other two. -/
structure Env where
  RULE_MODE_SYSTEM : Nat
  RULE_MODE_PERSISTENT : Nat
  RULE_MODE_SESSION : Nat
  RULE_ACTION_ALLOW : Nat
  RULE_ACTION_DENY : Nat
  noAddress : Nat
  parseTarget : Rule → String → Bool × Rule
  AddrString : Rule → Bool → String

/-! ## Conversions and the routines the handlers call -/

/-- The conversion `uint32(x)` of an unsigned value. -/
def toUint32 (x : Nat) : Nat := x % 2 ^ 32

/-- The conversion `uint16(x)` of an unsigned value. -/
def toUint16 (x : Nat) : Nat := x % 2 ^ 16

/-- The conversion `int32(x)` of a signed value (two's complement wrap). -/
def toInt32 (x : Int) : Int := (x + 2 ^ 31) % 2 ^ 32 - 2 ^ 31

/-- Go's `path.Base`: the last element of a slash-separated path, after
removing trailing slashes; `"."` for the empty path and `"/"` for a path of
slashes only. -/
def pathBase (path : String) : String :=
  if path = "" then "."
  else
    let stripped := path.toList.reverse.dropWhile (fun c => c == '/')
    let last := (stripped.takeWhile (fun c => c != '/')).reverse
    if last = [] then "/" else String.mk last

/-- What `new(Rule)` gives: every field zero. -/
def zeroRule : Rule :=
  { id := 0, policy := 0, rtype := 0, hostname := "", addr := 0, port := 0, mode := 0 }

/-- One call of a logging function. -/
def logf (l : LogLevel) (s : State) : State :=
  { s with log := s.log ++ [l] }

/-- The call `ds.fw.saveRules()`: the persistence routine is outside the
protocol core, the call is counted. -/
def saveRules (s : State) : State :=
  { s with saveRulesCalls := s.saveRulesCalls + 1 }

/-- The call `writeConfig()`: outside the protocol core, the call is counted. -/
def writeConfig (s : State) : State :=
  { s with writeConfigCalls := s.writeConfigCalls + 1 }

/-- Modelled from the spec: the logging backend is a library outside the
repository, "a live logging level setter". `SetLevel(level, module)` makes
`level` the level of the module. -/
def SetLevel (s : State) (level : Int) (modName : String) : State :=
  { s with fw := { s.fw with
      logBackend := fun m => if m = modName then level else s.fw.logBackend m } }

/-- Modelled from the spec: the logging backend is a library outside the
repository. `GetLevel(module)` is the level the backend holds for the module. -/
def GetLevel (s : State) (modName : String) : Int :=
  s.fw.logBackend modName

/-- Modelled from the spec: `Policy.removeRule` is called by `DeleteRule` and
declared outside `dbus.go`. The spec says that deletion "removes the Rule from
its Policy and from the flat index" and that "both must happen together":
the pointer `a` leaves the rule list of policy `p`, and the key of the rule
leaves `rulesById`. -/
def removeRule (s : State) (p a : Nat) : State :=
  { s with
    policyHeap := Function.update s.policyHeap p
      { s.policyHeap p with rules := (s.policyHeap p).rules.filter (fun b => b != a) }
    fw := { s.fw with
      rulesById := fun k => if k = (s.ruleHeap a).id then none else s.fw.rulesById k } }

/-! ## The handlers -/

/-- The function `createDbusRule`, on the rule object at address `a`. -/
def createDbusRule (E : Env) (s : State) (a : Nat) : DbusRule :=
  let r := s.ruleHeap a
  { Id := toUint32 r.id
    App := pathBase (s.policyHeap r.policy).path
    Path := (s.policyHeap r.policy).path
    Verb := toUint16 r.rtype
    Target := E.AddrString r false
    Mode := toUint16 r.mode }

/-- The handler `ListRules`: the two nested loops append one record per rule. -/
def ListRules (E : Env) (s : State) : Outcome (List DbusRule) :=
  let result := s.fw.policies.foldl
    (fun acc p => (s.policyHeap p).rules.foldl (fun acc a => acc ++ [createDbusRule E s a]) acc)
    []
  .returned result none s

/-- The handler `DeleteRule`. The argument `id` is a `uint32`, and `uint(id)`
keeps its value. The rule is read (`r.mode`) before the test `r != nil`, so a
failed lookup panics. -/
def DeleteRule (E : Env) (s : State) (id : Nat) : Outcome Unit :=
  match s.fw.rulesById id with
  | none => .panicked
  | some a =>
    if (s.ruleHeap a).mode = E.RULE_MODE_SYSTEM then
      .returned () none (logf .warning s)
    else
      let s1 := removeRule s (s.ruleHeap a).policy a
      if (s1.ruleHeap a).mode ≠ E.RULE_MODE_SESSION then
        .returned () none (saveRules s1)
      else
        .returned () none s1

/-- The rule `tmp` that `UpdateRule` hands to `parseTarget`: `new(Rule)` with
`addr` set to `noAddress`. -/
def freshTmp (E : Env) : Rule := { zeroRule with addr := E.noAddress }

/-- The assignments `UpdateRule` makes to the rule `r` under the policy lock:
the action when `rule.Verb` is the ALLOW or the DENY code, then hostname,
address and port from `tmp`, then the mode. -/
def assignRecord (E : Env) (r tmp : Rule) (rule : DbusRule) : Rule :=
  let r1 : Rule :=
    if rule.Verb = E.RULE_ACTION_ALLOW ∨ rule.Verb = E.RULE_ACTION_DENY then
      { r with rtype := rule.Verb }
    else r
  { r1 with hostname := tmp.hostname, addr := tmp.addr, port := tmp.port, mode := rule.Mode }

/-- The handler `UpdateRule`. -/
def UpdateRule (E : Env) (s : State) (rule : DbusRule) : Outcome Unit :=
  let s0 := logf .debug s
  match s0.fw.rulesById rule.Id with
  | none => .returned () none s0
  | some a =>
    if (s0.ruleHeap a).mode = E.RULE_MODE_SYSTEM then
      .returned () none (logf .warning s0)
    else
      let parsed := E.parseTarget (freshTmp E) rule.Target
      if !parsed.1 then
        .returned () none (logf .warning s0)
      else
        let s1 : State :=
          { s0 with ruleHeap :=
              Function.update s0.ruleHeap a (assignRecord E (s0.ruleHeap a) parsed.2 rule) }
        if (s1.ruleHeap a).mode ≠ E.RULE_MODE_SESSION then
          .returned () none (saveRules s1)
        else
          .returned () none s1

/-- A Go `map[string]dbus.Variant`. -/
abbrev ConfigMap := String → Option Variant

/-- The assignment `m[k] = v` on a map. -/
def mapSet (m : ConfigMap) (k : String) (v : Variant) : ConfigMap :=
  fun k' => if k' = k then some v else m k'

/-- The handler `GetConfig`. -/
def GetConfig (s : State) : Outcome ConfigMap :=
  let conf : ConfigMap := fun _ => none
  let conf := mapSet conf "log_level" (.int32 (toInt32 (GetLevel s "sgfw")))
  let conf := mapSet conf "log_redact" (.bool s.FirewallConfig.LogRedact)
  let conf := mapSet conf "prompt_expanded" (.bool s.FirewallConfig.PromptExpanded)
  let conf := mapSet conf "prompt_expert" (.bool s.FirewallConfig.PromptExpert)
  let conf := mapSet conf "default_action" (.uint16 (toUint16 s.FirewallConfig.DefaultActionId))
  .returned conf none s

/-- The handler `SetConfig`. Each case starts with a type assertion without the
comma-ok form, which panics when the dynamic type of the value is another. -/
def SetConfig (s : State) (key : String) (val : Variant) : Outcome Unit :=
  if key = "log_level" then
    match val with
    | .int32 l =>
      let s1 : State := SetLevel s l "sgfw"
      let s2 : State := { s1 with FirewallConfig := { s1.FirewallConfig with LoggingLevel := l } }
      .returned () none (writeConfig s2)
    | _ => .panicked
  else if key = "log_redact" then
    match val with
    | .bool flag =>
      .returned () none
        (writeConfig { s with FirewallConfig := { s.FirewallConfig with LogRedact := flag } })
    | _ => .panicked
  else if key = "prompt_expanded" then
    match val with
    | .bool flag =>
      .returned () none
        (writeConfig { s with FirewallConfig := { s.FirewallConfig with PromptExpanded := flag } })
    | _ => .panicked
  else if key = "prompt_expert" then
    match val with
    | .bool flag =>
      .returned () none
        (writeConfig { s with FirewallConfig := { s.FirewallConfig with PromptExpert := flag } })
    | _ => .panicked
  else if key = "default_action" then
    match val with
    | .uint16 l =>
      .returned () none
        (writeConfig { s with FirewallConfig := { s.FirewallConfig with DefaultActionId := l } })
    | _ => .panicked
  else
    .returned () none (writeConfig s)

/-! ## Predicates and states used by the statements -/

/-- The rule store is the same in `s'` as in `s`: both object heaps (hence every
field of every rule and every policy's rule list) and the firewall (the policy
list, the flat index, the logging backend). -/
def RuleStoreUnchanged (s s' : State) : Prop :=
  s'.ruleHeap = s.ruleHeap ∧ s'.policyHeap = s.policyHeap ∧ s'.fw = s.fw

/-- The rule pointers of the store in store order: policies in the order of
`fw.policies`, then each policy's rules in list order. -/
def storeOrder (s : State) : List Nat :=
  s.fw.policies.flatMap (fun p => (s.policyHeap p).rules)

/-- The flat id index and the policies' rule lists agree: a rule the index holds
under a key has that key as its id and is in the rule list of the policy it
points to, which is a policy of the store; and a rule in the list of a policy of
the store points to that policy and is the rule the index holds under its id. -/
def Agree (s : State) : Prop :=
  (∀ k a, s.fw.rulesById k = some a →
    (s.ruleHeap a).id = k ∧ (s.ruleHeap a).policy ∈ s.fw.policies ∧
      a ∈ (s.policyHeap (s.ruleHeap a).policy).rules) ∧
  (∀ p ∈ s.fw.policies, ∀ a ∈ (s.policyHeap p).rules,
    s.fw.rulesById (s.ruleHeap a).id = some a ∧ (s.ruleHeap a).policy = p)

/-- The id, the action and the mode of a rule are values of their types: the id
fits the `uint32` of the wire record, action and mode fit its `uint16`. -/
def Rule.Typed (r : Rule) : Prop :=
  r.id < 2 ^ 32 ∧ r.rtype < 2 ^ 16 ∧ r.mode < 2 ^ 16

/-- Every rule in a rule list of the store holds values of its field types. -/
def StoreTyped (s : State) : Prop :=
  ∀ a ∈ storeOrder s, (s.ruleHeap a).Typed

/-- The mode `m` is one of SYSTEM, PERSISTENT, SESSION. -/
def ValidMode (E : Env) (m : Nat) : Prop :=
  m = E.RULE_MODE_SYSTEM ∨ m = E.RULE_MODE_PERSISTENT ∨ m = E.RULE_MODE_SESSION

/-- The state `DeleteRule` returns in when the rule at address `a` is found and
is not a SYSTEM rule. -/
def afterDelete (E : Env) (s : State) (a : Nat) : State :=
  let s1 := removeRule s (s.ruleHeap a).policy a
  if (s.ruleHeap a).mode ≠ E.RULE_MODE_SESSION then saveRules s1 else s1

/-- The state `UpdateRule` returns in when the rule at address `a` is found, is
not a SYSTEM rule and the target of the record parses. -/
def afterUpdate (E : Env) (s : State) (a : Nat) (rule : DbusRule) : State :=
  let s0 := logf .debug s
  let r := assignRecord E (s0.ruleHeap a) (E.parseTarget (freshTmp E) rule.Target).2 rule
  let s1 : State := { s0 with ruleHeap := Function.update s0.ruleHeap a r }
  if rule.Mode ≠ E.RULE_MODE_SESSION then saveRules s1 else s1

/-- The type tags of a `dbus.Variant`. -/
inductive Tag where
  | bool | byte | int16 | uint16 | int32 | uint32 | int64 | uint64 | str | other
  deriving DecidableEq, Repr

/-- The tag of the dynamic type of a variant. -/
def Variant.tag : Variant → Tag
  | .bool _ => .bool
  | .byte _ => .byte
  | .int16 _ => .int16
  | .uint16 _ => .uint16
  | .int32 _ => .int32
  | .uint32 _ => .uint32
  | .int64 _ => .int64
  | .uint64 _ => .uint64
  | .str _ => .str
  | .other => .other

/-- The value of a variant is a value of its Go type. -/
def Variant.inRange : Variant → Bool
  | .byte n => decide (n < 2 ^ 8)
  | .int16 i => decide (-(2 ^ 15) ≤ i ∧ i < 2 ^ 15)
  | .uint16 n => decide (n < 2 ^ 16)
  | .int32 i => decide (-(2 ^ 31) ≤ i ∧ i < 2 ^ 31)
  | .uint32 n => decide (n < 2 ^ 32)
  | .int64 i => decide (-(2 ^ 63) ≤ i ∧ i < 2 ^ 63)
  | .uint64 n => decide (n < 2 ^ 64)
  | _ => true

/-- The recognized config keys. -/
def recognizedKeys : List String :=
  ["log_level", "log_redact", "prompt_expanded", "prompt_expert", "default_action"]

/-- The fixed type of each recognized config key: the type the case of
`SetConfig` for that key asserts. -/
def fixedType (key : String) : Option Tag :=
  if key = "log_level" then some .int32
  else if key = "log_redact" then some .bool
  else if key = "prompt_expanded" then some .bool
  else if key = "prompt_expert" then some .bool
  else if key = "default_action" then some .uint16
  else none

/-- The map `GetConfig` builds in state `s`. -/
def configOf (s : State) : ConfigMap :=
  fun k =>
    if k = "default_action" then some (.uint16 (toUint16 s.FirewallConfig.DefaultActionId))
    else if k = "prompt_expert" then some (.bool s.FirewallConfig.PromptExpert)
    else if k = "prompt_expanded" then some (.bool s.FirewallConfig.PromptExpanded)
    else if k = "log_redact" then some (.bool s.FirewallConfig.LogRedact)
    else if k = "log_level" then some (.int32 (toInt32 (GetLevel s "sgfw")))
    else none

/-! ## Sample data for the worked instances

The constants are declared outside `dbus.go`; the sample takes SESSION = 0,
PERSISTENT = 1, SYSTEM = 2 and DENY = 0, ALLOW = 1. The sample parser accepts
the one target of the scenario in the spec, `93.184.216.34:443`. -/

/-- The address 93.184.216.34 as a big-endian `uint32`. -/
def sampleAddr : Nat := 1572395042

/-- A parser for the worked instances: it accepts `93.184.216.34:443` only. -/
def sampleParseTarget (r : Rule) (t : String) : Bool × Rule :=
  if t = "93.184.216.34:443" then (true, { r with addr := sampleAddr, port := 443 })
  else (false, r)

/-- A serializer for the worked instances. -/
def sampleAddrString (r : Rule) (_redact : Bool) : String :=
  if r.addr = sampleAddr ∧ r.port = 443 then "93.184.216.34:443" else "*:*"

/-- The environment of the worked instances. -/
def sampleEnv : Env :=
  { RULE_MODE_SYSTEM := 2, RULE_MODE_PERSISTENT := 1, RULE_MODE_SESSION := 0,
    RULE_ACTION_ALLOW := 1, RULE_ACTION_DENY := 0, noAddress := 4294967295,
    parseTarget := sampleParseTarget, AddrString := sampleAddrString }

/-- A rule of the sample store: ALLOW to 93.184.216.34:443, owned by policy 1. -/
def sampleRule (id mode : Nat) : Rule :=
  { id := id, policy := 1, rtype := 1, hostname := "", addr := sampleAddr, port := 443,
    mode := mode }

/-- The sample configuration. -/
def sampleConfig : Config :=
  { LoggingLevel := 3, LogRedact := false, PromptExpanded := false, PromptExpert := false,
    DefaultActionId := 1 }

/-- The sample store: the policy of `/usr/bin/curl` at address 1 with three
rules, at addresses 10, 11, 12: id 1 PERSISTENT, id 2 SYSTEM, id 3 SESSION. -/
def sampleState : State :=
  { ruleHeap := fun a =>
      if a = 10 then sampleRule 1 1 else if a = 11 then sampleRule 2 2
      else if a = 12 then sampleRule 3 0 else zeroRule
    policyHeap := fun p =>
      if p = 1 then { path := "/usr/bin/curl", rules := [10, 11, 12] }
      else { path := "", rules := [] }
    fw :=
      { policies := [1]
        rulesById := fun k =>
          if k = 1 then some 10 else if k = 2 then some 11 else if k = 3 then some 12 else none
        logBackend := fun _ => 3 }
    FirewallConfig := sampleConfig
    saveRulesCalls := 0
    writeConfigCalls := 0
    log := [] }

/-- A wire record for the worked instances. -/
def sampleRecord (id verb : Nat) (target : String) (mode : Nat) : DbusRule :=
  { Id := id, App := "curl", Path := "/usr/bin/curl", Verb := verb, Target := target,
    Mode := mode }

/-! ## How the handlers run -/

/-- `DeleteRule` on a rule of the index that is not a SYSTEM rule returns with a
nil error in the state `afterDelete`. -/
theorem DeleteRule_run (E : Env) (s : State) (id a : Nat)
    (hidx : s.fw.rulesById id = some a)
    (hmode : (s.ruleHeap a).mode ≠ E.RULE_MODE_SYSTEM) :
    DeleteRule E s id = .returned () none (afterDelete E s a) := by
  simp only [DeleteRule, hidx]
  rw [if_neg hmode]
  have hkeep : ((removeRule s (s.ruleHeap a).policy a).ruleHeap a).mode = (s.ruleHeap a).mode := rfl
  rw [hkeep]
  unfold afterDelete
  split_ifs <;> rfl

/-- `UpdateRule` on a rule of the index that is not a SYSTEM rule, with a target
that parses, returns with a nil error in the state `afterUpdate`. -/
theorem UpdateRule_run (E : Env) (s : State) (a : Nat) (rec : DbusRule)
    (hidx : s.fw.rulesById rec.Id = some a)
    (hmode : (s.ruleHeap a).mode ≠ E.RULE_MODE_SYSTEM)
    (hparse : (E.parseTarget (freshTmp E) rec.Target).1 = true) :
    UpdateRule E s rec = .returned () none (afterUpdate E s a rec) := by
  by_cases hsess : rec.Mode = E.RULE_MODE_SESSION <;>
    simp [UpdateRule, afterUpdate, logf, hidx, hmode, hparse, assignRecord, hsess]

/-- The inner loop of `ListRules` appends the records of one rule list. -/
theorem foldl_append_records (f : Nat → DbusRule) (l : List Nat) (acc : List DbusRule) :
    l.foldl (fun acc a => acc ++ [f a]) acc = acc ++ l.map f := by
  induction l generalizing acc with
  | nil => simp
  | cons a l ih => simp [ih]

/-- The two loops of `ListRules` append the records of all rule lists, policy by
policy. -/
theorem foldl_policies_records (f : Nat → DbusRule) (rules : Nat → List Nat)
    (ps : List Nat) (acc : List DbusRule) :
    ps.foldl (fun acc p => (rules p).foldl (fun acc a => acc ++ [f a]) acc) acc
      = acc ++ (ps.flatMap rules).map f := by
  induction ps generalizing acc with
  | nil => simp
  | cons p ps ih =>
    rw [List.foldl_cons, ih, foldl_append_records, List.flatMap_cons, List.map_append,
      List.append_assoc]

/-- The records of `ListRules`: one per rule pointer, in store order. -/
theorem ListRules_run (E : Env) (s : State) :
    ListRules E s = .returned ((storeOrder s).map (createDbusRule E s)) none s := by
  simp [ListRules, storeOrder, foldl_policies_records]

/-- `GetConfig` returns the map `configOf` with a nil error and does not change
the state. -/
theorem GetConfig_run (s : State) : GetConfig s = .returned (configOf s) none s := rfl

/-! ## SYSTEM rules -/

/-- C1: when the flat index holds a rule with mode SYSTEM under `id`, then
`DeleteRule(id)`, and `UpdateRule(rec)` for every wire record `rec` with
`rec.Id = id` (whatever its verb, target and mode), return with a nil error,
leave the whole rule store unchanged and do not call `saveRules`. -/
theorem system_rule_is_untouched (E : Env) (s : State) (id a : Nat) (rec : DbusRule)
    (hidx : s.fw.rulesById id = some a)
    (hmode : (s.ruleHeap a).mode = E.RULE_MODE_SYSTEM)
    (hrec : rec.Id = id) :
    (∃ s', DeleteRule E s id = .returned () none s' ∧
        RuleStoreUnchanged s s' ∧ s'.saveRulesCalls = s.saveRulesCalls) ∧
    (∃ s', UpdateRule E s rec = .returned () none s' ∧
        RuleStoreUnchanged s s' ∧ s'.saveRulesCalls = s.saveRulesCalls) := by
  subst hrec
  constructor
  · refine ⟨logf .warning s, ?_, ⟨rfl, rfl, rfl⟩, rfl⟩
    simp [DeleteRule, hidx, hmode]
  · refine ⟨logf .warning (logf .debug s), ?_, ⟨rfl, rfl, rfl⟩, rfl⟩
    simp [UpdateRule, logf, hidx, hmode]

/-- C1, worked instance: rule id 2 of the sample store is a SYSTEM rule. -/
theorem system_rule_is_untouched_witness :
    (∃ s', DeleteRule sampleEnv sampleState 2 = .returned () none s' ∧
        RuleStoreUnchanged sampleState s' ∧
        s'.saveRulesCalls = sampleState.saveRulesCalls) ∧
    (∃ s', UpdateRule sampleEnv sampleState (sampleRecord 2 0 "93.184.216.34:443" 0)
          = .returned () none s' ∧
        RuleStoreUnchanged sampleState s' ∧
        s'.saveRulesCalls = sampleState.saveRulesCalls) :=
  system_rule_is_untouched sampleEnv sampleState 2 11 (sampleRecord 2 0 "93.184.216.34:443" 0)
    rfl rfl rfl

/-! ## Deleting an id that is not in the index -/

/-- C2: the code at an id without an entry in the flat index. `DeleteRule` reads
`r.mode` through the nil pointer before it tests `r != nil`, and panics. -/
theorem DeleteRule_absent_id_panics (E : Env) (s : State) (id : Nat)
    (hidx : s.fw.rulesById id = none) :
    DeleteRule E s id = .panicked := by
  simp [DeleteRule, hidx]

/-- C2, worked instance: id 7 is not in the sample store. -/
theorem DeleteRule_absent_id_panics_witness :
    DeleteRule sampleEnv sampleState 7 = .panicked :=
  DeleteRule_absent_id_panics sampleEnv sampleState 7 rfl

/-! ## Deleting a rule that is not a SYSTEM rule -/

/-- Removing the pointer `a` from the list of policy `q` removes it from the
store order, when no other policy of `ps` lists `a`. -/
theorem flatMap_update_filter (heap : Nat → Policy) (q a : Nat) (ps : List Nat)
    (hother : ∀ p ∈ ps, p ≠ q → a ∉ (heap p).rules) :
    ps.flatMap (fun p => (Function.update heap q
        { heap q with rules := (heap q).rules.filter (fun b => b != a) } p).rules)
      = (ps.flatMap (fun p => (heap p).rules)).filter (fun b => b != a) := by
  induction ps with
  | nil => simp
  | cons p ps ih =>
    have ih' := ih (fun p' hp' => hother p' (List.mem_cons_of_mem _ hp'))
    rw [List.flatMap_cons, List.flatMap_cons, List.filter_append, ih']
    congr 1
    by_cases hpq : p = q
    · subst hpq
      simp
    · have hnot : a ∉ (heap p).rules := hother p (List.mem_cons_self _ _) hpq
      rw [Function.update_noteq hpq]
      symm
      rw [List.filter_eq_self]
      intro b hb
      have : b ≠ a := fun h => hnot (h ▸ hb)
      simpa using this

/-- The store order after `DeleteRule`: the pointer of the deleted rule is gone,
the others keep their order. -/
theorem storeOrder_afterDelete (E : Env) (s : State) (a : Nat) (hagree : Agree s) :
    storeOrder (afterDelete E s a) = (storeOrder s).filter (fun b => b != a) := by
  have hother : ∀ p ∈ s.fw.policies, p ≠ (s.ruleHeap a).policy → a ∉ (s.policyHeap p).rules := by
    intro p hp hne hmem
    exact hne (hagree.2 p hp a hmem).2.symm
  have h := flatMap_update_filter s.policyHeap (s.ruleHeap a).policy a s.fw.policies hother
  unfold afterDelete
  split_ifs <;> simpa [storeOrder, removeRule, saveRules] using h

/-- The record of a rule is the same before and after `DeleteRule`. -/
theorem createDbusRule_afterDelete (E : Env) (s : State) (a b : Nat) :
    createDbusRule E (afterDelete E s a) b = createDbusRule E s b := by
  have hpath : ∀ q, ((afterDelete E s a).policyHeap q).path = (s.policyHeap q).path := by
    intro q
    unfold afterDelete
    by_cases hq : q = (s.ruleHeap a).policy
    · subst hq
      split_ifs <;> simp [removeRule, saveRules]
    · split_ifs <;> simp [removeRule, saveRules, Function.update_noteq hq]
  have hheap : (afterDelete E s a).ruleHeap = s.ruleHeap := by
    unfold afterDelete
    split_ifs <;> rfl
  simp only [createDbusRule, hheap, hpath]

/-- The flat index after `DeleteRule`: the key of the deleted rule is gone. -/
theorem rulesById_afterDelete (E : Env) (s : State) (a k : Nat) :
    (afterDelete E s a).fw.rulesById k
      = if k = (s.ruleHeap a).id then none else s.fw.rulesById k := by
  unfold afterDelete
  split_ifs <;> simp_all [removeRule, saveRules]

/-- The rule list of a policy after `DeleteRule`: the pointer `a` is gone, the
other pointers stay. -/
theorem mem_rules_afterDelete (E : Env) (s : State) (a p b : Nat) :
    b ∈ ((afterDelete E s a).policyHeap p).rules ↔ b ∈ (s.policyHeap p).rules ∧
      (p = (s.ruleHeap a).policy → b ≠ a) := by
  have hheap : (afterDelete E s a).policyHeap = Function.update s.policyHeap (s.ruleHeap a).policy
      { s.policyHeap (s.ruleHeap a).policy with
        rules := (s.policyHeap (s.ruleHeap a).policy).rules.filter (fun b => b != a) } := by
    unfold afterDelete
    split_ifs <;> rfl
  rw [hheap]
  by_cases hp : p = (s.ruleHeap a).policy
  · subst hp
    simp
  · simp [Function.update_noteq hp, hp]

/-- C3: in a rule store in which the flat id index and the policies' rule
lists agree, for a rule that the index holds under `id` and that is not a SYSTEM
rule, `DeleteRule(id)` returns with a nil error and afterwards the rule is
absent from the flat index and from the rule list of its policy (and from every
other list), every other rule is in the index and in the lists exactly where it
was, and a following `ListRules` returns the records of the other rules in
their order, none of them with the Id `id`. The rules of the store hold values
of their field types, so `id` is a `uint32`. -/
theorem DeleteRule_removes_rule (E : Env) (s : State) (id a : Nat)
    (hagree : Agree s)
    (htyped : StoreTyped s)
    (hidx : s.fw.rulesById id = some a)
    (hmode : (s.ruleHeap a).mode ≠ E.RULE_MODE_SYSTEM) :
    id < 2 ^ 32 ∧
    ∃ s', DeleteRule E s id = .returned () none s' ∧
      (∀ k, s'.fw.rulesById k ≠ some a) ∧
      a ∉ (s'.policyHeap (s.ruleHeap a).policy).rules ∧
      a ∉ storeOrder s' ∧
      (∀ k b, b ≠ a → (s'.fw.rulesById k = some b ↔ s.fw.rulesById k = some b)) ∧
      (∀ p b, b ≠ a → (b ∈ (s'.policyHeap p).rules ↔ b ∈ (s.policyHeap p).rules)) ∧
      ∃ recs, ListRules E s' = .returned recs none s' ∧
        recs = ((storeOrder s).filter (fun b => b != a)).map (createDbusRule E s) ∧
        ∀ r ∈ recs, r.Id ≠ id := by
  have hkey : (s.ruleHeap a).id = id := (hagree.1 id a hidx).1
  have hmem : a ∈ storeOrder s :=
    List.mem_flatMap.mpr ⟨(s.ruleHeap a).policy, (hagree.1 id a hidx).2.1, (hagree.1 id a hidx).2.2⟩
  refine ⟨hkey ▸ (htyped a hmem).1, afterDelete E s a, DeleteRule_run E s id a hidx hmode,
    ?_, ?_, ?_, ?_, ?_, ?_⟩
  · intro k hk
    rw [rulesById_afterDelete] at hk
    split_ifs at hk with hka
    exact hka (hagree.1 k a hk).1.symm
  · rw [mem_rules_afterDelete]
    exact fun h => h.2 rfl rfl
  · rw [storeOrder_afterDelete E s a hagree]
    simp
  · intro k b hba
    rw [rulesById_afterDelete]
    split_ifs with hka
    · constructor
      · intro h
        cases h
      · intro h
        rw [hka, hkey, hidx] at h
        exact absurd (Option.some.inj h).symm hba
    · exact Iff.rfl
  · intro p b hba
    rw [mem_rules_afterDelete]
    exact ⟨fun h => h.1, fun h => ⟨h, fun _ => hba⟩⟩
  · refine ⟨_, ListRules_run E (afterDelete E s a), ?_, ?_⟩
    · rw [storeOrder_afterDelete E s a hagree]
      exact List.map_congr_left (fun b _ => createDbusRule_afterDelete E s a b)
    · intro r hr
      rw [storeOrder_afterDelete E s a hagree, List.mem_map] at hr
      obtain ⟨b, hb, rfl⟩ := hr
      rw [List.mem_filter] at hb
      have hba : b ≠ a := by simpa using hb.2
      obtain ⟨p, hp, hbp⟩ := List.mem_flatMap.mp (show b ∈ storeOrder s from hb.1)
      have hbidx := (hagree.2 p hp b hbp).1
      have hne : (s.ruleHeap b).id ≠ id := by
        intro h
        rw [h, hidx] at hbidx
        exact hba (Option.some.inj hbidx).symm
      rw [createDbusRule_afterDelete]
      simp only [createDbusRule, toUint32]
      rw [Nat.mod_eq_of_lt (htyped b hb.1).1]
      exact hne

/-- The index and the rule list of the sample store agree. -/
theorem sampleState_agree : Agree sampleState := by
  constructor
  · intro k a h
    simp only [sampleState] at h
    split_ifs at h with h1 h2 h3
    · cases h; subst h1; decide
    · cases h; subst h2; decide
    · cases h; subst h3; decide
  · decide

/-- The rules of the sample store hold values of their field types. -/
theorem sampleState_typed : StoreTyped sampleState := by
  unfold StoreTyped Rule.Typed
  decide

/-- C3, worked instance: deleting the PERSISTENT rule id 1 (address 10) of the
sample store; `ListRules` then returns the records of the rules 2 and 3. -/
theorem DeleteRule_removes_rule_witness :
    1 < 2 ^ 32 ∧
    ∃ s', DeleteRule sampleEnv sampleState 1 = .returned () none s' ∧
      (∀ k, s'.fw.rulesById k ≠ some 10) ∧
      10 ∉ (s'.policyHeap (sampleState.ruleHeap 10).policy).rules ∧
      10 ∉ storeOrder s' ∧
      (∀ k b, b ≠ 10 → (s'.fw.rulesById k = some b ↔ sampleState.fw.rulesById k = some b)) ∧
      (∀ p b, b ≠ 10 →
        (b ∈ (s'.policyHeap p).rules ↔ b ∈ (sampleState.policyHeap p).rules)) ∧
      ∃ recs, ListRules sampleEnv s' = .returned recs none s' ∧
        recs = ((storeOrder sampleState).filter (fun b => b != 10)).map
          (createDbusRule sampleEnv sampleState) ∧
        ∀ r ∈ recs, r.Id ≠ 1 :=
  DeleteRule_removes_rule sampleEnv sampleState 1 10 sampleState_agree sampleState_typed
    rfl (by decide)

/-! ## UpdateRule on a rule that is not a SYSTEM rule -/

/-- C4: for a rule of the index that is not a SYSTEM rule and a wire record for
its id whose target `parseTarget` rejects, `UpdateRule` returns with a nil
error, leaves the action, hostname, address, port and mode of the rule as they
were, whatever `rec.Verb` and `rec.Mode` are, leaves the whole rule store
unchanged and does not call `saveRules`. -/
theorem UpdateRule_unparsable_target (E : Env) (s : State) (a : Nat) (rec : DbusRule)
    (hidx : s.fw.rulesById rec.Id = some a)
    (hmode : (s.ruleHeap a).mode ≠ E.RULE_MODE_SYSTEM)
    (hparse : (E.parseTarget (freshTmp E) rec.Target).1 = false) :
    ∃ s', UpdateRule E s rec = .returned () none s' ∧
      (s'.ruleHeap a).rtype = (s.ruleHeap a).rtype ∧
      (s'.ruleHeap a).hostname = (s.ruleHeap a).hostname ∧
      (s'.ruleHeap a).addr = (s.ruleHeap a).addr ∧
      (s'.ruleHeap a).port = (s.ruleHeap a).port ∧
      (s'.ruleHeap a).mode = (s.ruleHeap a).mode ∧
      RuleStoreUnchanged s s' ∧ s'.saveRulesCalls = s.saveRulesCalls := by
  refine ⟨logf .warning (logf .debug s), ?_, rfl, rfl, rfl, rfl, rfl, ⟨rfl, rfl, rfl⟩, rfl⟩
  simp [UpdateRule, logf, hidx, hmode, hparse]

/-- C4, worked instance: the scenario of the spec, `bad::target::string` sent
for the PERSISTENT rule id 1 of the sample store. -/
theorem UpdateRule_unparsable_target_witness :
    ∃ s', UpdateRule sampleEnv sampleState (sampleRecord 1 0 "bad::target::string" 0)
        = .returned () none s' ∧
      (s'.ruleHeap 10).rtype = (sampleState.ruleHeap 10).rtype ∧
      (s'.ruleHeap 10).hostname = (sampleState.ruleHeap 10).hostname ∧
      (s'.ruleHeap 10).addr = (sampleState.ruleHeap 10).addr ∧
      (s'.ruleHeap 10).port = (sampleState.ruleHeap 10).port ∧
      (s'.ruleHeap 10).mode = (sampleState.ruleHeap 10).mode ∧
      RuleStoreUnchanged sampleState s' ∧ s'.saveRulesCalls = sampleState.saveRulesCalls :=
  UpdateRule_unparsable_target sampleEnv sampleState 10
    (sampleRecord 1 0 "bad::target::string" 0) rfl (by decide) (by decide)

/-- C5: for a rule of the index that is not a SYSTEM rule and a wire record for
its id whose target parses, `UpdateRule` returns with a nil error and afterwards
the hostname, address and port of the rule are those `parseTarget` produced, its
mode is `rec.Mode`, and its action is `rec.Verb` when that is the ALLOW or the
DENY code and the action it had before for every other value of `rec.Verb`. -/
theorem UpdateRule_applies_record (E : Env) (s : State) (a : Nat) (rec : DbusRule)
    (hidx : s.fw.rulesById rec.Id = some a)
    (hmode : (s.ruleHeap a).mode ≠ E.RULE_MODE_SYSTEM)
    (hparse : (E.parseTarget (freshTmp E) rec.Target).1 = true) :
    ∃ s', UpdateRule E s rec = .returned () none s' ∧
      (s'.ruleHeap a).hostname = (E.parseTarget (freshTmp E) rec.Target).2.hostname ∧
      (s'.ruleHeap a).addr = (E.parseTarget (freshTmp E) rec.Target).2.addr ∧
      (s'.ruleHeap a).port = (E.parseTarget (freshTmp E) rec.Target).2.port ∧
      (s'.ruleHeap a).mode = rec.Mode ∧
      (rec.Verb = E.RULE_ACTION_ALLOW ∨ rec.Verb = E.RULE_ACTION_DENY →
        (s'.ruleHeap a).rtype = rec.Verb) ∧
      (¬ (rec.Verb = E.RULE_ACTION_ALLOW ∨ rec.Verb = E.RULE_ACTION_DENY) →
        (s'.ruleHeap a).rtype = (s.ruleHeap a).rtype) := by
  refine ⟨afterUpdate E s a rec, UpdateRule_run E s a rec hidx hmode hparse, ?_⟩
  by_cases hsess : rec.Mode = E.RULE_MODE_SESSION <;>
    by_cases hverb : rec.Verb = E.RULE_ACTION_ALLOW ∨ rec.Verb = E.RULE_ACTION_DENY <;>
    simp [afterUpdate, saveRules, logf, assignRecord, hsess, hverb]

/-- C5, worked instance: verb 7 is neither the ALLOW nor the DENY code, the
target parses: target and mode of rule id 1 are replaced, its action stays. -/
theorem UpdateRule_applies_record_witness :
    ∃ s', UpdateRule sampleEnv sampleState (sampleRecord 1 7 "93.184.216.34:443" 0)
        = .returned () none s' ∧
      (s'.ruleHeap 10).hostname = "" ∧
      (s'.ruleHeap 10).addr = sampleAddr ∧
      (s'.ruleHeap 10).port = 443 ∧
      (s'.ruleHeap 10).mode = 0 ∧
      ((7 : Nat) = sampleEnv.RULE_ACTION_ALLOW ∨ (7 : Nat) = sampleEnv.RULE_ACTION_DENY →
        (s'.ruleHeap 10).rtype = 7) ∧
      (¬ ((7 : Nat) = sampleEnv.RULE_ACTION_ALLOW ∨ (7 : Nat) = sampleEnv.RULE_ACTION_DENY) →
        (s'.ruleHeap 10).rtype = 1) :=
  UpdateRule_applies_record sampleEnv sampleState 10
    (sampleRecord 1 7 "93.184.216.34:443" 0) rfl (by decide) (by decide)

/-! ## Persistence -/

/-- C6: for a rule of the index that is not a SYSTEM rule, `DeleteRule` calls
`saveRules` once when the mode of the rule is not SESSION and not at all when it
is SESSION; and `UpdateRule` with a record for its id whose target parses calls
`saveRules` once when the mode the rule has afterwards is not SESSION and not at
all when it is SESSION. -/
theorem saveRules_on_non_session_only (E : Env) (s : State) (id a : Nat) (rec : DbusRule)
    (hidx : s.fw.rulesById id = some a)
    (hmode : (s.ruleHeap a).mode ≠ E.RULE_MODE_SYSTEM)
    (hrec : rec.Id = id)
    (hparse : (E.parseTarget (freshTmp E) rec.Target).1 = true) :
    (∃ s', DeleteRule E s id = .returned () none s' ∧
      s'.saveRulesCalls = s.saveRulesCalls +
        (if (s.ruleHeap a).mode = E.RULE_MODE_SESSION then 0 else 1)) ∧
    (∃ s', UpdateRule E s rec = .returned () none s' ∧
      s'.saveRulesCalls = s.saveRulesCalls +
        (if (s'.ruleHeap a).mode = E.RULE_MODE_SESSION then 0 else 1)) := by
  subst hrec
  constructor
  · refine ⟨afterDelete E s a, DeleteRule_run E s rec.Id a hidx hmode, ?_⟩
    by_cases hsess : (s.ruleHeap a).mode = E.RULE_MODE_SESSION <;>
      simp [afterDelete, removeRule, saveRules, hsess]
  · refine ⟨afterUpdate E s a rec, UpdateRule_run E s a rec hidx hmode hparse, ?_⟩
    by_cases hsess : rec.Mode = E.RULE_MODE_SESSION <;>
      simp [afterUpdate, saveRules, logf, assignRecord, hsess]

/-- C6, worked instance: deleting the PERSISTENT rule id 1 of the sample store
calls `saveRules` once, updating it to SESSION mode does not call it. -/
theorem saveRules_on_non_session_only_witness :
    (∃ s', DeleteRule sampleEnv sampleState 1 = .returned () none s' ∧
      s'.saveRulesCalls = sampleState.saveRulesCalls +
        (if (sampleState.ruleHeap 10).mode = sampleEnv.RULE_MODE_SESSION then 0 else 1)) ∧
    (∃ s', UpdateRule sampleEnv sampleState (sampleRecord 1 1 "93.184.216.34:443" 0)
        = .returned () none s' ∧
      s'.saveRulesCalls = sampleState.saveRulesCalls +
        (if (s'.ruleHeap 10).mode = sampleEnv.RULE_MODE_SESSION then 0 else 1)) :=
  saveRules_on_non_session_only sampleEnv sampleState 1 10
    (sampleRecord 1 1 "93.184.216.34:443" 0) rfl (by decide) rfl (by decide)

/-! ## Configuration -/

/-- C7: the code at a recognized key and a value whose type tag is not the fixed
type of the key. The type assertion of `SetConfig` panics; the handler does not
return, with or without an error. -/
theorem SetConfig_type_mismatch_panics (s : State) (key : String) (val : Variant) (t : Tag)
    (hkey : fixedType key = some t) (htag : val.tag ≠ t) :
    SetConfig s key val = .panicked := by
  unfold fixedType at hkey
  split_ifs at hkey with h1 h2 h3 h4 h5 <;> cases hkey <;> cases val <;>
    simp_all [SetConfig, Variant.tag]

/-- C7, worked instance: `log_level` sent with a string value. -/
theorem SetConfig_type_mismatch_panics_witness :
    SetConfig sampleState "log_level" (.str "5") = .panicked :=
  SetConfig_type_mismatch_panics sampleState "log_level" (.str "5") .int32
    (by decide) (by decide)

/-- The keys of the map of `GetConfig` are the five recognized keys. -/
theorem configOf_keys (s : State) (k : String) :
    (configOf s k).isSome = true ↔ k ∈ recognizedKeys := by
  unfold configOf recognizedKeys
  split_ifs with h1 h2 h3 h4 h5 <;> simp_all

/-- The conversion `int32(x)` keeps a value that is an `int32`. -/
theorem toInt32_of_inRange (i : Int) (h : -(2 ^ 31) ≤ i ∧ i < 2 ^ 31) : toInt32 i = i := by
  unfold toInt32
  omega

/-- C8: for a recognized key and a value `val` of the fixed type of that key,
`SetConfig` returns with a nil error, and the map `GetConfig` returns afterwards
has exactly the five recognized keys, maps the key to `val` and maps every other
key to what the map of `GetConfig` before the call had; for `log_level` the
level the logging backend holds for the module `sgfw` is the value set. -/
theorem SetConfig_GetConfig_roundtrip (s : State) (key : String) (val : Variant) (t : Tag)
    (hkey : fixedType key = some t) (htag : val.tag = t) (hrange : val.inRange = true) :
    ∃ s' conf0 conf,
      SetConfig s key val = .returned () none s' ∧
      GetConfig s = .returned conf0 none s ∧
      GetConfig s' = .returned conf none s' ∧
      (∀ k, (conf k).isSome = true ↔ k ∈ recognizedKeys) ∧
      conf key = some val ∧
      (∀ k, k ≠ key → conf k = conf0 k) ∧
      (key = "log_level" → val = .int32 (GetLevel s' "sgfw")) := by
  unfold fixedType at hkey
  split_ifs at hkey with h1 h2 h3 h4 h5 <;> cases hkey <;> cases val <;>
    simp only [Variant.tag, reduceCtorEq] at htag
  · subst h1
    rename_i i
    have hi : toInt32 i = i := toInt32_of_inRange i (by simpa [Variant.inRange] using hrange)
    refine ⟨_, configOf s, _, rfl, GetConfig_run s, GetConfig_run _, configOf_keys _, ?_, ?_, ?_⟩
    · simp [configOf, writeConfig, GetLevel, SetLevel, hi]
    · intro k hk
      simp only [configOf, writeConfig, GetLevel, SetLevel]
      split_ifs <;> simp_all
    · intro _
      simp [writeConfig, GetLevel, SetLevel]
  · subst h2
    refine ⟨_, configOf s, _, rfl, GetConfig_run s, GetConfig_run _, configOf_keys _, ?_, ?_, ?_⟩
    · simp [configOf, writeConfig]
    · intro k hk
      simp only [configOf, writeConfig, GetLevel]
      split_ifs <;> simp_all
    · intro h
      exact absurd h (by decide)
  · subst h3
    refine ⟨_, configOf s, _, rfl, GetConfig_run s, GetConfig_run _, configOf_keys _, ?_, ?_, ?_⟩
    · simp [configOf, writeConfig]
    · intro k hk
      simp only [configOf, writeConfig, GetLevel]
      split_ifs <;> simp_all
    · intro h
      exact absurd h (by decide)
  · subst h4
    refine ⟨_, configOf s, _, rfl, GetConfig_run s, GetConfig_run _, configOf_keys _, ?_, ?_, ?_⟩
    · simp [configOf, writeConfig]
    · intro k hk
      simp only [configOf, writeConfig, GetLevel]
      split_ifs <;> simp_all
    · intro h
      exact absurd h (by decide)
  · subst h5
    rename_i n
    have hn : toUint16 n = n := by
      have : n < 2 ^ 16 := by simpa [Variant.inRange] using hrange
      exact Nat.mod_eq_of_lt this
    refine ⟨_, configOf s, _, rfl, GetConfig_run s, GetConfig_run _, configOf_keys _, ?_, ?_, ?_⟩
    · simp [configOf, writeConfig, hn]
    · intro k hk
      simp only [configOf, writeConfig, GetLevel]
      split_ifs <;> simp_all
    · intro h
      exact absurd h (by decide)

/-- C8, worked instance: the example of the spec, `SetConfig("log_level", 5)`. -/
theorem SetConfig_GetConfig_roundtrip_witness :
    ∃ s' conf0 conf,
      SetConfig sampleState "log_level" (.int32 5) = .returned () none s' ∧
      GetConfig sampleState = .returned conf0 none sampleState ∧
      GetConfig s' = .returned conf none s' ∧
      (∀ k, (conf k).isSome = true ↔ k ∈ recognizedKeys) ∧
      conf "log_level" = some (.int32 5) ∧
      (∀ k, k ≠ "log_level" → conf k = conf0 k) ∧
      ("log_level" = "log_level" → Variant.int32 5 = .int32 (GetLevel s' "sgfw")) :=
  SetConfig_GetConfig_roundtrip sampleState "log_level" (.int32 5) .int32
    (by decide) rfl (by decide)

/-! ## ListRules -/

/-- C9: for every rule store, whose rules hold values of their field types,
`ListRules` returns with a nil error, in the unchanged state, one wire record
per rule in store order (policies in the order of the store, then each policy's
rules in list order), so the number of records is the sum of the policies' rule
counts; the record of rule `r` has Id = `r.id`, Path = the path of the policy
`r` points to, App = the base name of that path, Verb = the action code of
`r`, Mode = the mode code of `r` and Target = the serialized target of `r`. -/
theorem ListRules_records (E : Env) (s : State) (htyped : StoreTyped s) :
    ListRules E s = .returned ((storeOrder s).map (createDbusRule E s)) none s ∧
    ((storeOrder s).map (createDbusRule E s)).length
      = (s.fw.policies.map (fun p => (s.policyHeap p).rules.length)).sum ∧
    (∀ a ∈ storeOrder s, createDbusRule E s a =
      { Id := (s.ruleHeap a).id
        App := pathBase (s.policyHeap (s.ruleHeap a).policy).path
        Path := (s.policyHeap (s.ruleHeap a).policy).path
        Verb := (s.ruleHeap a).rtype
        Target := E.AddrString (s.ruleHeap a) false
        Mode := (s.ruleHeap a).mode }) := by
  refine ⟨ListRules_run E s, ?_, ?_⟩
  · simp only [storeOrder, List.length_map, List.length_flatMap]
    rfl
  · intro a ha
    obtain ⟨hid, hrtype, hmode⟩ := htyped a ha
    simp only [createDbusRule, toUint32, toUint16, Nat.mod_eq_of_lt hid,
      Nat.mod_eq_of_lt hrtype, Nat.mod_eq_of_lt hmode]

/-- C9, worked instance: the three records of the sample store. -/
theorem ListRules_records_witness :
    ListRules sampleEnv sampleState =
      .returned
        [{ Id := 1, App := "curl", Path := "/usr/bin/curl", Verb := 1,
           Target := "93.184.216.34:443", Mode := 1 },
         { Id := 2, App := "curl", Path := "/usr/bin/curl", Verb := 1,
           Target := "93.184.216.34:443", Mode := 2 },
         { Id := 3, App := "curl", Path := "/usr/bin/curl", Verb := 1,
           Target := "93.184.216.34:443", Mode := 0 }] none sampleState ∧
    ((storeOrder sampleState).map (createDbusRule sampleEnv sampleState)).length = 3 ∧
    createDbusRule sampleEnv sampleState 11 =
      { Id := 2, App := "curl", Path := "/usr/bin/curl", Verb := 1,
        Target := "93.184.216.34:443", Mode := 2 } :=
  ⟨(ListRules_records sampleEnv sampleState sampleState_typed).1.trans rfl,
   (ListRules_records sampleEnv sampleState sampleState_typed).2.1.trans rfl,
   ((ListRules_records sampleEnv sampleState sampleState_typed).2.2 11 (by decide)).trans rfl⟩

/-! ## The mode of a rule -/

/-- Whatever the three mode constants are, one of the `uint16` values 0, 1, 2, 3
is none of them. -/
theorem exists_invalid_mode (E : Env) : ∃ m, m < 4 ∧ ¬ ValidMode E m := by
  unfold ValidMode
  by_cases h0 : ValidMode E 0
  · by_cases h1 : ValidMode E 1
    · by_cases h2 : ValidMode E 2
      · refine ⟨3, by omega, ?_⟩
        unfold ValidMode at h0 h1 h2
        omega
      · exact ⟨2, by omega, h2⟩
    · exact ⟨1, by omega, h1⟩
  · exact ⟨0, by omega, h0⟩

/-- C10: the code at a record whose mode is none of the three mode codes.
`UpdateRule` stores `RuleMode(rule.Mode)` without a test: for a rule of the index
that is not a SYSTEM rule and a target that parses, the rule has the mode of the
record afterwards, which is none of SYSTEM, PERSISTENT, SESSION. -/
theorem UpdateRule_stores_invalid_mode (E : Env) (s : State) (a : Nat) (rec : DbusRule)
    (hidx : s.fw.rulesById rec.Id = some a)
    (hmode : (s.ruleHeap a).mode ≠ E.RULE_MODE_SYSTEM)
    (hparse : (E.parseTarget (freshTmp E) rec.Target).1 = true)
    (hbad : ¬ ValidMode E rec.Mode) :
    ∃ s', UpdateRule E s rec = .returned () none s' ∧
      s'.fw.rulesById rec.Id = some a ∧
      (s'.ruleHeap a).mode = rec.Mode ∧
      ¬ ValidMode E (s'.ruleHeap a).mode := by
  have hm : ((afterUpdate E s a rec).ruleHeap a).mode = rec.Mode := by
    by_cases hsess : rec.Mode = E.RULE_MODE_SESSION <;>
      simp [afterUpdate, saveRules, logf, assignRecord, hsess]
  have hi : (afterUpdate E s a rec).fw.rulesById rec.Id = some a := by
    rw [← hidx]
    unfold afterUpdate
    split_ifs <;> rfl
  exact ⟨afterUpdate E s a rec, UpdateRule_run E s a rec hidx hmode hparse, hi, hm, hm ▸ hbad⟩

/-- C10, worked instance: every rule of the sample store has one of the three
modes; the record for rule id 1 with mode 3 leaves the rule with mode 3. -/
theorem UpdateRule_stores_invalid_mode_witness :
    (∀ b ∈ storeOrder sampleState, ValidMode sampleEnv (sampleState.ruleHeap b).mode) ∧
    ∃ s', UpdateRule sampleEnv sampleState (sampleRecord 1 1 "93.184.216.34:443" 3)
        = .returned () none s' ∧
      s'.fw.rulesById 1 = some 10 ∧
      (s'.ruleHeap 10).mode = 3 ∧
      ¬ ValidMode sampleEnv (s'.ruleHeap 10).mode :=
  ⟨by unfold ValidMode; decide,
   UpdateRule_stores_invalid_mode sampleEnv sampleState 10
    (sampleRecord 1 1 "93.184.216.34:443" 3) rfl (by decide) (by decide)
    (by unfold ValidMode; decide)⟩

end Sgfw
